import Mathlib

/-!
Verification of the mcp-nrepl client bridge.

This file gives a shallow embedding of the client-side bridge found in
src/mcp_nrepl_client.py and of the stdio test client in src/test_mcp_stdio.py,
and proves the specified properties about the request-id discipline, the
operation-catalog cache, the command dispatcher, the scenario runner, the
pretty renderer and the one-shot CLI exit codes.

Modelling conventions:
- The JSON-RPC transport (the awaited HTTP round trip inside _make_request,
  lines 130-150) is modelled as a pure oracle of type Transport: a function
  from method name and request parameters to the dictionary that
  _make_request hands back to its caller (either the response result object
  or an error wrapper).  Each client operation additionally returns the list
  of method names it sent through the transport, so that "performs zero
  transport calls" is a statement about an empty trace.
- The dictionaries the code inspects are modelled structurally: ToolResult
  records exactly the keys the client reads (error, content, tools).
- Console printing, the pretty flag's effect on printing, and readline
  history persistence are I/O only and are not part of the returned values;
  the printed scenario summary (passed/total) is modelled as returned counts.
- Python str.startswith is modelled by startswith below via character-list
  isPrefixOf, which agrees with it on all inputs.
-/

namespace McpNrepl

/-- An operation descriptor from the tools/list response; the client reads
only the name field (the description is used for display). -/
structure Tool where
  name : String
  description : String
deriving DecidableEq

/-- One element of a result's content list, as read by the client:
a type tag and the text payload (lines 276-279, 339). -/
structure ContentItem where
  type : String
  text : String
deriving DecidableEq

/-- The dictionary _make_request returns to its caller, recording the keys
the client code tests for: an error wrapper (line 145-146, 149-150), the
content list of a tools/call result, and the tools list of a tools/list
result. -/
structure ToolResult where
  error : Option String
  content : Option (List ContentItem)
  tools : Option (List Tool)
deriving DecidableEq

/-- Request parameters as built by the client: the fixed handshake payload
(lines 158-162), the empty params of tools/list, or a tools/call payload. -/
inductive RpcParams where
  | handshake
  | noParams
  | call (name : String) (arguments : List (String × String))
deriving DecidableEq

/-- The transport oracle: what the awaited round trip inside _make_request
produces for a given method and params. -/
abbrev Transport := String → RpcParams → ToolResult

/-- The JSON-RPC payload _make_request builds (lines 134-139).  The id field
is the literal 1 on every call. -/
structure RpcPayload where
  jsonrpc : String
  id : Nat
  method : String
  params : RpcParams
deriving DecidableEq

/-- Translation of the payload construction in MCPnREPLClient._make_request
(lines 134-139): jsonrpc "2.0", id 1, the given method and params. -/
def make_request_payload (method : String) (params : RpcParams) : RpcPayload :=
  { jsonrpc := "2.0", id := 1, method := method, params := params }

/-- State of the stdio test client (src/test_mcp_stdio.py line 20):
the request_id counter, 0 at construction. -/
structure StdioState where
  request_id : Nat
deriving DecidableEq

/-- The request object StdioMCPClient.send_request writes
(src/test_mcp_stdio.py lines 40-46). -/
structure StdioRequest where
  jsonrpc : String
  id : Nat
  method : String
deriving DecidableEq

/-- Translation of StdioMCPClient.send_request (src/test_mcp_stdio.py lines
35-52): increments request_id, then builds the request carrying the new
counter value as its id. -/
def send_request (st : StdioState) (method : String) : StdioRequest × StdioState :=
  let rid := st.request_id + 1
  ({ jsonrpc := "2.0", id := rid, method := method }, { request_id := rid })

/-- The sequence of requests produced by consecutive send_request calls on
one stdio client, threading the counter state. -/
def send_request_seq : StdioState → List String → List StdioRequest
  | _, [] => []
  | st, m :: ms =>
    let r := send_request st m
    r.1 :: send_request_seq r.2 ms

/-- Mutable state of MCPnREPLClient (lines 81-84): the handshake flag, the
cached tool catalog and the evaluation history. -/
structure ClientState where
  initialized : Bool
  tools_cache : List Tool
  history : List String
deriving DecidableEq

/-- Translation of MCPnREPLClient._find_tool (lines 187-192): first tool in
the cache whose name matches exactly, none otherwise. -/
def find_tool (cache : List Tool) (name : String) : Option Tool :=
  cache.find? (fun tool => tool.name == name)

/-- The local error dictionary call_tool returns for an unknown tool
(line 246). -/
def tool_not_found : ToolResult :=
  { error := some "Tool not found", content := none, tools := none }

/-- Translation of MCPnREPLClient.call_tool (lines 242-268): if the name is
absent from the cached catalog, return the local error with no transport
call; otherwise send one tools/call exchange and return its result.  The
pretty flag only selects between printing styles and is omitted.  The third
component is the trace of transport methods called. -/
def call_tool (st : ClientState) (transport : Transport) (tool_name : String)
    (arguments : List (String × String)) : ToolResult × ClientState × List String :=
  match find_tool st.tools_cache tool_name with
  | none => (tool_not_found, st, [])
  | some _ =>
    (transport "tools/call" (.call tool_name arguments), st, ["tools/call"])

/-- Translation of MCPnREPLClient.eval_code (lines 293-307): builds the
argument map with the code and the optional namespace, dispatches through
call_tool, then appends the code to the history — unconditionally, after the
call returns. -/
def eval_code (st : ClientState) (transport : Transport) (code : String)
    (ns : Option String) : ToolResult × ClientState × List String :=
  let args := ("code", code) :: (match ns with | some n => [("ns", n)] | none => [])
  let r := call_tool st transport "nrepl-eval" args
  (r.1, { r.2.1 with history := r.2.1.history ++ [code] }, r.2.2)

/-- Translation of MCPnREPLClient._cache_tools (lines 177-181): one
tools/list exchange; if the response carries a tools key the cache is
replaced by that list in its entirety, otherwise (error or missing key) the
state is left untouched.  The Python function returns None in both cases, so
the caller receives no indication of failure; here the returned pair carries
only the new state and the transport trace. -/
def cache_tools (st : ClientState) (transport : Transport) : ClientState × List String :=
  let result := transport "tools/list" .noParams
  match result.tools with
  | some ts => ({ st with tools_cache := ts }, ["tools/list"])
  | none => (st, ["tools/list"])

/-- Translation of MCPnREPLClient.connect (lines 152-175): sends the fixed
handshake; if the response carries an error key, returns false with the
state untouched; otherwise sets the handshake flag, runs the catalog refresh
and returns true regardless of the refresh outcome. -/
def connect (st : ClientState) (transport : Transport) : Bool × ClientState × List String :=
  let result := transport "initialize" .handshake
  if result.error.isSome then
    (false, st, ["initialize"])
  else
    let refreshed := cache_tools { st with initialized := true } transport
    (true, refreshed.1, "initialize" :: refreshed.2)

/-- Translation of MCPnREPLClient.get_status (lines 309-311): a tools/call
of nrepl-status with empty arguments. -/
def get_status (st : ClientState) (transport : Transport) :
    ToolResult × ClientState × List String :=
  call_tool st transport "nrepl-status" []

/-- Translation of MCPnREPLClient.list_tools (lines 194-240): when the
cached catalog is empty it first runs one catalog refresh; if the catalog is
still empty it reports the No-tools-available error (line 200) and returns
false; otherwise it prints the catalog in the chosen format and returns
true.  The format parameter only selects a printing style and is omitted;
the false return value coincides exactly with the error report. -/
def list_tools (st : ClientState) (transport : Transport) :
    Bool × ClientState × List String :=
  let r := if st.tools_cache.isEmpty then cache_tools st transport else (st, [])
  if r.1.tools_cache.isEmpty then (false, r.1, r.2) else (true, r.1, r.2)

/-- Python str.startswith, modelled on character lists. -/
def startswith (s pre : String) : Bool :=
  pre.data.isPrefixOf s.data

/-- The reserved failure-marker literal of line 340 of the source
(the three code points U+201A, U+00F9, U+00E5 as they appear in the file). -/
def failure_marker : String := "‚ùå"

/-- One step of the scenario runner: a label, a tool name and arguments
(lines 318-326). -/
structure TestStep where
  label : String
  tool : String
  args : List (String × String)
deriving DecidableEq

/-- The fixed scenario of MCPnREPLClient.run_nrepl_tests (lines 318-326). -/
def nrepl_tests : List TestStep :=
  [ ⟨"Connection Status", "nrepl-status", []⟩,
    ⟨"Basic Arithmetic", "nrepl-eval", [("code", "(+ 1 2 3)")]⟩,
    ⟨"String Operations", "nrepl-eval", [("code", "(str \"Hello\" \" \" \"World\")")]⟩,
    ⟨"Data Structures", "nrepl-eval", [("code", "(count [1 2 3 4 5])")]⟩,
    ⟨"Function Definition", "nrepl-eval", [("code", "(defn test-fn [x] (* x 2))")]⟩,
    ⟨"Function Call", "nrepl-eval", [("code", "(test-fn 21)")]⟩,
    ⟨"Comprehensive Health Test", "nrepl-test", []⟩ ]

/-- The text the runner extracts from a content list (line 339): the text of
the first item when the list is non-empty, the empty string otherwise. -/
def first_content_text (content : List ContentItem) : String :=
  match content with
  | [] => ""
  | item :: _ => item.text

/-- The per-step pass decision of run_nrepl_tests (lines 336-353): a step
passes when the result carries no error key and, if a content key is
present, the extracted text does not begin with the failure marker; a result
with no content key passes outright. -/
def step_passes (result : ToolResult) : Bool :=
  if result.error.isSome then false
  else
    match result.content with
    | some content => !(startswith (first_content_text content) failure_marker)
    | none => true

/-- The loop of run_nrepl_tests (lines 331-353): every step is dispatched
through call_tool in declaration order and its pass decision recorded; no
step outcome stops the loop. -/
def run_steps (transport : Transport) : ClientState → List TestStep → List Bool × ClientState
  | st, [] => ([], st)
  | st, step :: rest =>
    let r := call_tool st transport step.tool step.args
    let rest_out := run_steps transport r.2.1 rest
    (step_passes r.1 :: rest_out.1, rest_out.2)

/-- Translation of MCPnREPLClient.run_nrepl_tests (lines 313-361): runs the
fixed scenario, reports the passed and total counts (printed at line 355,
modelled as returned values) and returns overall success exactly when every
step passed (line 361). -/
def run_nrepl_tests (st : ClientState) (transport : Transport) :
    Bool × Nat × Nat × ClientState :=
  let outs := run_steps transport st nrepl_tests
  let passed := outs.1.count true
  let total := nrepl_tests.length
  (passed == total, passed, total, outs.2)

/-- A rendered output panel of the pretty formatter: a structured JSON
panel, a plain-text panel, or the whole-result JSON panel used when the
result has no content key. -/
inductive RenderedPanel (J : Type) where
  | jsonPanel (value : J)
  | textPanel (text : String)
  | resultPanel
deriving DecidableEq

/-- The loop of _format_pretty_result over the content list (lines 277-288):
for each item tagged text, try to parse its text as JSON (json.loads is the
external parser, passed in as parse); on success render a structured panel,
on failure fall back to a plain-text panel carrying the same text.  Items
with another type tag render nothing. -/
def render_content_items {J : Type} (parse : String → Option J) :
    List ContentItem → List (RenderedPanel J)
  | [] => []
  | item :: rest =>
    if item.type == "text" then
      (match parse item.text with
       | some j => RenderedPanel.jsonPanel j
       | none => RenderedPanel.textPanel item.text) :: render_content_items parse rest
    else render_content_items parse rest

/-- Translation of MCPnREPLClient._format_pretty_result (lines 270-291):
renders the content items when a content key is present, and otherwise one
panel showing the whole result as JSON (lines 289-291). -/
def format_pretty_result {J : Type} (parse : String → Option J) (result : ToolResult) :
    List (RenderedPanel J) :=
  match result.content with
  | some items => render_content_items parse items
  | none => [RenderedPanel.resultPanel]

/-- The parsed one-shot command-line options of main (lines 514-537) that
select an action: the optional eval code, the status, test and tools flags,
the optional tool name and the raw args text (default the empty JSON
object). -/
structure CliArgs where
  evalCode : Option String
  status : Bool
  test_nrepl : Bool
  tools : Bool
  tool : Option String
  argsText : String
deriving DecidableEq

/-- Python truthiness of an optional string option: present and non-empty. -/
def truthy : Option String → Bool
  | some s => !(s == "")
  | none => false

/-- Translation of the exit-code behaviour of main (lines 543-584): connect
failure exits 1; then the elif chain over eval, status, test-nrepl, tools
and tool runs one action, exiting 1 when its result carries an error key,
when the scenario run fails, or when json.loads (the external parser, passed
in as parse) rejects the args text; the tools branch (line 563-564) runs
list_tools and discards its return value, so it falls through to a normal
exit 0 together with the remaining paths. -/
def main_exit (parse : String → Option (List (String × String))) (a : CliArgs)
    (st : ClientState) (transport : Transport) : Nat :=
  if !(connect st transport).1 then 1
  else
    let st1 := (connect st transport).2.1
    if truthy a.evalCode then
      if (eval_code st1 transport (a.evalCode.getD "") none).1.error.isSome then 1 else 0
    else if a.status then
      if (get_status st1 transport).1.error.isSome then 1 else 0
    else if a.test_nrepl then
      if !(run_nrepl_tests st1 transport).1 then 1 else 0
    else if a.tools then
      let _ignored := list_tools st1 transport
      0
    else if truthy a.tool then
      match parse a.argsText with
      | none => 1
      | some targs =>
        if (call_tool st1 transport (a.tool.getD "") targs).1.error.isSome then 1 else 0
    else 0

/-- Whether a one-shot run reports an error, read off the error-reporting
sites of the code along main's elif chain: connect prints Connection failed
(line 165) exactly when it returns false; call_tool prints Tool not found or
Tool call failed (lines 245, 259) exactly when its result carries an error
key, which covers the eval, status and tool actions; a scenario run prints
the tests-failed warning (line 359) exactly when not all steps passed;
list_tools prints No tools available (line 200) exactly when it returns
false; and main prints Invalid JSON (line 569) when the external parser
rejects the args text. -/
def error_reported (parse : String → Option (List (String × String))) (a : CliArgs)
    (st : ClientState) (transport : Transport) : Bool :=
  if !(connect st transport).1 then true
  else
    let st1 := (connect st transport).2.1
    if truthy a.evalCode then
      (eval_code st1 transport (a.evalCode.getD "") none).1.error.isSome
    else if a.status then
      (get_status st1 transport).1.error.isSome
    else if a.test_nrepl then
      !(run_nrepl_tests st1 transport).1
    else if a.tools then
      !(list_tools st1 transport).1
    else if truthy a.tool then
      match parse a.argsText with
      | none => true
      | some targs =>
        (call_tool st1 transport (a.tool.getD "") targs).1.error.isSome
    else false

/-- The parsed options of a one-shot tools listing invocation. -/
def cli_tools_args : CliArgs :=
  { evalCode := none, status := false, test_nrepl := false, tools := true,
    tool := none, argsText := "" }

/-- The parsed options of a one-shot code-evaluation invocation. -/
def cli_eval_args : CliArgs :=
  { evalCode := some "(+ 1 2)", status := false, test_nrepl := false, tools := false,
    tool := none, argsText := "" }

/-- A transport stub that answers every exchange with a plain text result. -/
def stub_ok : Transport :=
  fun _ _ => { error := none, content := some [⟨"text", "6"⟩], tools := none }

/-- A transport stub that fails every exchange with a timeout, as the
exception branch of _make_request does (lines 149-150). -/
def stub_err : Transport :=
  fun _ _ => { error := some "timeout", content := none, tools := none }

/-- A transport stub whose tools/list response carries an empty tools
list. -/
def stub_empty_tools : Transport :=
  fun _ _ => { error := none, content := none, tools := some [] }

/-- A transport stub advertising one tool named nrepl-eval. -/
def stub_one_tool : Transport :=
  fun _ _ => { error := none, content := none, tools := some [⟨"nrepl-eval", "Evaluate"⟩] }

/-- A transport stub whose handshake succeeds but whose tools/list exchange
times out. -/
def stub_handshake_only : Transport :=
  fun method _ =>
    if method == "tools/list" then { error := some "timeout", content := none, tools := none }
    else { error := none, content := none, tools := none }

/-! Helper lemmas shared by the claim theorems. -/

theorem call_tool_of_find_none {st : ClientState} {name : String}
    (transport : Transport) (args : List (String × String))
    (h : find_tool st.tools_cache name = none) :
    call_tool st transport name args = (tool_not_found, st, []) := by
  simp [call_tool, h]

theorem call_tool_of_find_some {st : ClientState} {name : String} {t : Tool}
    (transport : Transport) (args : List (String × String))
    (h : find_tool st.tools_cache name = some t) :
    call_tool st transport name args =
      (transport "tools/call" (.call name args), st, ["tools/call"]) := by
  simp [call_tool, h]

theorem call_tool_state (st : ClientState) (transport : Transport)
    (name : String) (args : List (String × String)) :
    (call_tool st transport name args).2.1 = st := by
  rcases h : find_tool st.tools_cache name with _ | t <;> simp [call_tool, h]

theorem send_request_seq_ids (ms : List String) : ∀ n : Nat,
    (send_request_seq ⟨n⟩ ms).map (fun r => r.id) = List.range' (n + 1) ms.length := by
  induction ms with
  | nil => intro n; rfl
  | cons m ms ih =>
    intro n
    simp [send_request_seq, send_request, List.range'_succ, ih]

/-! Claim theorems. -/

/-- C1 (counterexample): in MCPnREPLClient the request ids are not unique
and not strictly increasing: _make_request stamps the literal id 1 on every
payload, so the client's first two exchanges of a session (the handshake
followed by the catalog listing) carry the same id, and the second id is not
greater than the first. -/
theorem C1_http_id_reused :
    (make_request_payload "tools/list" .noParams).id =
      (make_request_payload "initialize" RpcParams.handshake).id ∧
    ¬ (make_request_payload "initialize" RpcParams.handshake).id <
        (make_request_payload "tools/list" .noParams).id :=
  ⟨rfl, by decide⟩

/-- C1 (amended): the stdio test client assigns request ids 1, 2, 3, ... to
consecutive exchanges of one session — unique, strictly increasing with no
gaps — and embeds each id unchanged in the request payload it writes; the
HTTP client's _make_request instead stamps the constant id 1 on every
payload, reusing it across the session. -/
theorem C1_request_ids (ms : List String) (method : String) (params : RpcParams) :
    (send_request_seq ⟨0⟩ ms).map (fun r => r.id) = List.range' 1 ms.length ∧
    (make_request_payload method params).id = 1 :=
  ⟨send_request_seq_ids ms 0, rfl⟩

/-- C2: for every operation name absent from the cached catalog (the empty
catalog included), call_tool returns the local unknown-operation error
immediately: the result is the Tool-not-found error dictionary, the
transport trace is empty (zero transport calls) and the client state is
unchanged. -/
theorem C2_unknown_tool_local_error (st : ClientState) (transport : Transport)
    (name : String) (args : List (String × String))
    (h : find_tool st.tools_cache name = none) :
    (call_tool st transport name args).1.error = some "Tool not found" ∧
    (call_tool st transport name args).2.2 = [] ∧
    (call_tool st transport name args).2.1 = st := by
  rw [call_tool_of_find_none transport args h]
  exact ⟨rfl, rfl, rfl⟩

/-- Witness for C2: a dispatch of nrepl-eval against the empty catalog fails
locally with no transport call. -/
theorem C2_witness :
    (call_tool ⟨false, [], []⟩ stub_ok "nrepl-eval" []).1.error = some "Tool not found" ∧
    (call_tool ⟨false, [], []⟩ stub_ok "nrepl-eval" []).2.2 = [] ∧
    (call_tool ⟨false, [], []⟩ stub_ok "nrepl-eval" []).2.1 = ⟨false, [], []⟩ :=
  C2_unknown_tool_local_error ⟨false, [], []⟩ stub_ok "nrepl-eval" [] rfl

/-- C3 (counterexample): eval_code appends to the history even when the
invocation fails at the dispatch or transport level, contrary to the claim.
With an empty catalog the dispatch fails locally with the unknown-operation
error, yet the submitted code becomes the most recent history entry; with
the tool in the catalog but a transport timeout, the code is recorded as
well. -/
theorem C3_history_recorded_on_failure :
    (eval_code ⟨false, [], []⟩ stub_err "(+ 1 2 3)" none).1.error = some "Tool not found" ∧
    (eval_code ⟨false, [], []⟩ stub_err "(+ 1 2 3)" none).2.1.history = ["(+ 1 2 3)"] ∧
    (eval_code ⟨false, [⟨"nrepl-eval", "Evaluate"⟩], []⟩ stub_err "(+ 1 2)" none).1.error =
      some "timeout" ∧
    (eval_code ⟨false, [⟨"nrepl-eval", "Evaluate"⟩], []⟩ stub_err "(+ 1 2)" none).2.1.history =
      ["(+ 1 2)"] := by
  refine ⟨rfl, rfl, rfl, rfl⟩

/-- C3 (amended): every code-evaluation invocation appends the submitted
code string as the most recent history entry unconditionally — on backend
success, on backend-reported errors, and also on transport errors and
dispatch-level failures such as an unknown operation. -/
theorem C3_history_unconditional (st : ClientState) (transport : Transport)
    (code : String) (ns : Option String) :
    (eval_code st transport code ns).2.1.history = st.history ++ [code] := by
  simp only [eval_code]
  rw [call_tool_state]

/-- C4: when the handshake exchange fails (for example with a transport
timeout), connect returns false, leaves a false handshake flag false, leaves
an empty catalog empty, and sends exactly the one handshake exchange — no
catalog refresh, no retry. -/
theorem C4_connect_failure (st : ClientState) (transport : Transport)
    (herr : (transport "initialize" RpcParams.handshake).error.isSome = true)
    (hini : st.initialized = false) (hcat : st.tools_cache = []) :
    connect st transport = (false, st, ["initialize"]) ∧
    (connect st transport).2.1.initialized = false ∧
    (connect st transport).2.1.tools_cache = [] := by
  have h : connect st transport = (false, st, ["initialize"]) := by
    simp [connect, herr]
  refine ⟨h, ?_, ?_⟩ <;> rw [h] <;> assumption

/-- Witness for C4: connect against the always-timing-out transport stub
from a fresh client state. -/
theorem C4_witness :
    connect ⟨false, [], []⟩ stub_err = (false, ⟨false, [], []⟩, ["initialize"]) ∧
    (connect ⟨false, [], []⟩ stub_err).2.1.initialized = false ∧
    (connect ⟨false, [], []⟩ stub_err).2.1.tools_cache = [] :=
  C4_connect_failure ⟨false, [], []⟩ stub_err rfl rfl rfl

/-- C5 (counterexample): the refresh does not surface its failure to the
caller: starting from an empty cached catalog, a refresh whose tools/list
exchange times out returns exactly the same value as a successful refresh
that parsed an empty operation list, so the caller cannot distinguish the
failure and no error is surfaced. -/
theorem C5_failure_not_surfaced :
    cache_tools ⟨true, [], []⟩ stub_err = cache_tools ⟨true, [], []⟩ stub_empty_tools ∧
    cache_tools ⟨true, [], []⟩ stub_err = (⟨true, [], []⟩, ["tools/list"]) :=
  ⟨rfl, rfl⟩

/-- C5 (amended): on success the cached catalog is replaced atomically and
in its entirety by the parsed operation list from the response; on failure
the previously cached catalog (possibly empty) is left completely untouched
— but the error is silently ignored rather than surfaced to the caller. -/
theorem C5_cache_tools_replace_or_keep (st : ClientState) (transport : Transport) :
    (∀ ts, (transport "tools/list" .noParams).tools = some ts →
      cache_tools st transport = ({ st with tools_cache := ts }, ["tools/list"])) ∧
    ((transport "tools/list" .noParams).tools = none →
      cache_tools st transport = (st, ["tools/list"])) := by
  constructor
  · intro ts h
    simp [cache_tools, h]
  · intro h
    simp [cache_tools, h]

/-- Witness for C5: a successful refresh replaces an empty catalog with the
advertised tool, and a failed refresh leaves that catalog untouched. -/
theorem C5_witness :
    cache_tools ⟨false, [], []⟩ stub_one_tool =
      (⟨false, [⟨"nrepl-eval", "Evaluate"⟩], []⟩, ["tools/list"]) ∧
    cache_tools ⟨false, [⟨"nrepl-eval", "Evaluate"⟩], []⟩ stub_err =
      (⟨false, [⟨"nrepl-eval", "Evaluate"⟩], []⟩, ["tools/list"]) :=
  ⟨(C5_cache_tools_replace_or_keep ⟨false, [], []⟩ stub_one_tool).1 _ rfl,
   (C5_cache_tools_replace_or_keep ⟨false, [⟨"nrepl-eval", "Evaluate"⟩], []⟩ stub_err).2 rfl⟩

/-- C9: the outcome of connect depends only on the handshake exchange: when
it succeeds connect returns true and sets the handshake flag, whatever the
catalog refresh produced; when the refresh response carries no tools key the
catalog keeps its previous value (empty for a fresh client); and with an
empty catalog every later named-operation invocation fails locally as
unknown, with no transport call. -/
theorem C9_connect_ignores_refresh (st : ClientState) (transport : Transport)
    (hok : (transport "initialize" RpcParams.handshake).error = none) :
    (connect st transport).1 = true ∧
    (connect st transport).2.1.initialized = true ∧
    ((transport "tools/list" .noParams).tools = none →
      (connect st transport).2.1.tools_cache = st.tools_cache) ∧
    (∀ (transport2 : Transport) (name : String) (args : List (String × String)),
      (connect st transport).2.1.tools_cache = [] →
      call_tool (connect st transport).2.1 transport2 name args =
        (tool_not_found, (connect st transport).2.1, [])) := by
  have hc : connect st transport =
      (true, (cache_tools { st with initialized := true } transport).1,
        "initialize" :: (cache_tools { st with initialized := true } transport).2) := by
    simp [connect, hok]
  refine ⟨by rw [hc], ?_, ?_, ?_⟩
  · rw [hc]
    rcases h : (transport "tools/list" .noParams).tools with _ | ts <;>
      simp [cache_tools, h]
  · intro h
    rw [hc]
    simp [cache_tools, h]
  · intro transport2 name args hempty
    apply call_tool_of_find_none
    rw [hempty]
    rfl

/-- Witness for C9: against a stub whose handshake succeeds but whose
catalog listing times out, connect returns true with the flag set and an
empty catalog, and a later dispatch fails locally. -/
theorem C9_witness :
    (connect ⟨false, [], []⟩ stub_handshake_only).1 = true ∧
    (connect ⟨false, [], []⟩ stub_handshake_only).2.1.initialized = true ∧
    (connect ⟨false, [], []⟩ stub_handshake_only).2.1.tools_cache = [] ∧
    call_tool (connect ⟨false, [], []⟩ stub_handshake_only).2.1 stub_ok "nrepl-eval" [] =
      (tool_not_found, (connect ⟨false, [], []⟩ stub_handshake_only).2.1, []) := by
  have h := C9_connect_ignores_refresh ⟨false, [], []⟩ stub_handshake_only rfl
  exact ⟨h.1, h.2.1, (h.2.2.1 rfl).trans rfl, h.2.2.2 stub_ok "nrepl-eval" [] ((h.2.2.1 rfl).trans rfl)⟩

theorem run_steps_state (transport : Transport) (steps : List TestStep) :
    ∀ st : ClientState, (run_steps transport st steps).2 = st := by
  induction steps with
  | nil => intro st; rfl
  | cons s rest ih =>
    intro st
    simp [run_steps, ih, call_tool_state]

theorem run_steps_outcomes (transport : Transport) (steps : List TestStep) :
    ∀ st : ClientState, (run_steps transport st steps).1 =
      steps.map (fun s => step_passes (call_tool st transport s.tool s.args).1) := by
  induction steps with
  | nil => intro st; rfl
  | cons s rest ih =>
    intro st
    simp [run_steps, call_tool_state, ih]

theorem step_passes_characterization (r : ToolResult) :
    step_passes r =
      (r.error.isNone &&
        !(startswith (first_content_text (r.content.getD [])) failure_marker)) := by
  rcases r with ⟨error, content, tools⟩
  cases error with
  | some e => simp [step_passes]
  | none =>
    cases content with
    | some c => simp [step_passes]
    | none =>
      simp only [step_passes, Option.isSome_none, Option.getD_none, Option.isNone_none,
        Bool.true_and, if_false, Bool.false_eq_true]
      decide

/-- C6: the scenario runner dispatches every step in declaration order and a
failing step never halts the run — the outcome list maps each declared step
to its own pass decision; a step counts as passed exactly when its exchange
carries no error key and its extracted textual payload does not begin with
the reserved failure marker; the runner reports the passed count out of the
total count; and it signals overall success exactly when the two counts are
equal. -/
theorem C6_scenario_runner (st : ClientState) (transport : Transport)
    (steps : List TestStep) (r : ToolResult) :
    (run_steps transport st steps).1 =
      steps.map (fun s => step_passes (call_tool st transport s.tool s.args).1) ∧
    step_passes r =
      (r.error.isNone &&
        !(startswith (first_content_text (r.content.getD [])) failure_marker)) ∧
    (run_nrepl_tests st transport).2.1 = ((run_steps transport st nrepl_tests).1).count true ∧
    (run_nrepl_tests st transport).2.2.1 = nrepl_tests.length ∧
    (run_nrepl_tests st transport).1 =
      ((run_nrepl_tests st transport).2.1 == (run_nrepl_tests st transport).2.2.1) :=
  ⟨run_steps_outcomes transport steps st, step_passes_characterization r, rfl, rfl, rfl⟩

/-- C10: a structurally successful exchange with no content key, or with an
empty content list, counts as a passed step — the extracted text is then
empty and never begins with the failure marker — while for a non-empty
content list the pass decision is exactly the marker check on the first
item's text. -/
theorem C10_empty_content_passes (r : ToolResult) (herr : r.error = none) :
    ((r.content = none ∨ r.content = some []) → step_passes r = true) ∧
    (∀ (item : ContentItem) (rest : List ContentItem), r.content = some (item :: rest) →
      step_passes r = !(startswith item.text failure_marker)) := by
  constructor
  · rintro (h | h)
    · simp only [step_passes, herr, Option.isSome_none, if_false, h,
        first_content_text, Bool.false_eq_true]
    · simp only [step_passes, herr, Option.isSome_none, if_false, h,
        first_content_text, Bool.false_eq_true]
      decide
  · intro item rest h
    simp [step_passes, herr, h, first_content_text]

/-- Witness for C10: an errorless result with an empty content list and one
with no content key both count as passed. -/
theorem C10_witness :
    step_passes ⟨none, some [], none⟩ = true ∧
    step_passes ⟨none, none, none⟩ = true :=
  ⟨(C10_empty_content_passes ⟨none, some [], none⟩ rfl).1 (Or.inr rfl),
   (C10_empty_content_passes ⟨none, none, none⟩ rfl).1 (Or.inl rfl)⟩

/-- C7 (counterexample): a reachable one-shot tools listing refutes the
claim: against a stub whose handshake succeeds but whose tools/list exchange
times out (a transport error), the listing reports the No-tools-available
error — list_tools returns false, which coincides with its error report at
line 200 — yet main ignores that value and the process exits 0, not 1. -/
theorem C7_tools_error_exits_zero :
    (stub_handshake_only "tools/list" RpcParams.noParams).error = some "timeout" ∧
    error_reported (fun _ => none) cli_tools_args ⟨false, [], []⟩ stub_handshake_only = true ∧
    main_exit (fun _ => none) cli_tools_args ⟨false, [], []⟩ stub_handshake_only = 0 :=
  ⟨rfl, rfl, rfl⟩

/-- C7 (amended): a one-shot CLI invocation produces only the exit codes 0
and 1; for every invocation other than a tools listing, the process exits
with 1 exactly when an error was reported — a handshake transport failure,
an error result of the selected eval, status or tool action (a transport
error or an unknown operation), a failed scenario run, or invalid JSON
supplied as operation arguments; a tools listing invocation however always
exits 0, even when its catalog listing fails and its error is reported. -/
theorem C7_exit_codes (parse : String → Option (List (String × String))) (a : CliArgs)
    (st : ClientState) (transport : Transport) :
    (main_exit parse a st transport = 0 ∨ main_exit parse a st transport = 1) ∧
    (a.tools = false →
      (main_exit parse a st transport = 1 ↔ error_reported parse a st transport = true)) ∧
    (truthy a.evalCode = false → a.status = false → a.test_nrepl = false → a.tools = true →
      (connect st transport).1 = true → main_exit parse a st transport = 0) := by
  refine ⟨?_, ?_, ?_⟩
  · unfold main_exit
    rcases hp : parse a.argsText with _ | targs <;>
      · simp only [hp]
        split_ifs <;> simp
  · intro htools
    unfold main_exit error_reported
    rcases hp : parse a.argsText with _ | targs <;>
      · simp only [hp, htools, Bool.false_eq_true, if_false]
        split_ifs <;> simp_all
  · intro he hs ht htools hc
    unfold main_exit
    simp [hc, he, hs, ht, htools]

/-- Witness for C7: the tools invocation against the handshake-only stub
exits 0, and for an eval invocation the exit code 1 coincides with the
reported error. -/
theorem C7_witness :
    main_exit (fun _ => none) cli_tools_args ⟨false, [], []⟩ stub_handshake_only = 0 ∧
    (main_exit (fun _ => none) cli_eval_args ⟨false, [], []⟩ stub_err = 1 ↔
      error_reported (fun _ => none) cli_eval_args ⟨false, [], []⟩ stub_err = true) :=
  ⟨(C7_exit_codes (fun _ => none) cli_tools_args ⟨false, [], []⟩ stub_handshake_only).2.2
      rfl rfl rfl rfl rfl,
   (C7_exit_codes (fun _ => none) cli_eval_args ⟨false, [], []⟩ stub_err).2.1 rfl⟩

theorem mem_render_of_parse_none {J : Type} (parse : String → Option J) :
    ∀ (items : List ContentItem) (item : ContentItem), item ∈ items →
      item.type = "text" → parse item.text = none →
      RenderedPanel.textPanel item.text ∈ render_content_items parse items := by
  intro items
  induction items with
  | nil =>
    intro item h
    cases h
  | cons x rest ih =>
    intro item hmem htype hparse
    rcases List.mem_cons.mp hmem with heq | hmem2
    · subst heq
      simp [render_content_items, htype, hparse]
    · by_cases hx : x.type = "text"
      · rcases hp : parse x.text with _ | j <;>
          · simp only [render_content_items, hx, hp, beq_self_eq_true, if_true, List.mem_cons]
            exact Or.inr (ih item hmem2 htype hparse)
      · have hx2 : (x.type == "text") = false := by simp [hx]
        simp only [render_content_items, hx2, Bool.false_eq_true, if_false]
        exact ih item hmem2 htype hparse

theorem render_mem_cases {J : Type} (parse : String → Option J) :
    ∀ (items : List ContentItem) (p : RenderedPanel J), p ∈ render_content_items parse items →
      (∃ j, p = RenderedPanel.jsonPanel j) ∨
      (∃ item, item ∈ items ∧ parse item.text = none ∧ p = RenderedPanel.textPanel item.text) := by
  intro items
  induction items with
  | nil =>
    intro p h
    cases h
  | cons x rest ih =>
    intro p hmem
    by_cases hx : (x.type == "text") = true
    · rcases hp : parse x.text with _ | j
      · simp only [render_content_items, hx, hp, if_true] at hmem
        rcases List.mem_cons.mp hmem with heq | hmem2
        · exact Or.inr ⟨x, List.mem_cons_self x rest, hp, heq⟩
        · rcases ih p hmem2 with hj | ⟨item, hi, hpn, hpe⟩
          · exact Or.inl hj
          · exact Or.inr ⟨item, List.mem_cons_of_mem x hi, hpn, hpe⟩
      · simp only [render_content_items, hx, hp, if_true] at hmem
        rcases List.mem_cons.mp hmem with heq | hmem2
        · exact Or.inl ⟨j, heq⟩
        · rcases ih p hmem2 with hj | ⟨item, hi, hpn, hpe⟩
          · exact Or.inl hj
          · exact Or.inr ⟨item, List.mem_cons_of_mem x hi, hpn, hpe⟩
    · simp only [render_content_items, hx, if_false, Bool.false_eq_true] at hmem
      rcases ih p hmem with hj | ⟨item, hi, hpn, hpe⟩
      · exact Or.inl hj
      · exact Or.inr ⟨item, List.mem_cons_of_mem x hi, hpn, hpe⟩

/-- C8: in formatted mode, for a successful result with content, every text
item whose payload fails to parse as JSON is rendered as a plain-text panel
carrying the very same text, and every rendered panel is either a structured
JSON panel or such a plain-text fallback — the fallback is total, produces
no error value, and is never surfaced as an error to the caller. -/
theorem C8_pretty_fallback {J : Type} (parse : String → Option J) (result : ToolResult)
    (items : List ContentItem) (h : result.content = some items) :
    (∀ item, item ∈ items → item.type = "text" → parse item.text = none →
      RenderedPanel.textPanel item.text ∈ format_pretty_result parse result) ∧
    (∀ p, p ∈ format_pretty_result parse result →
      (∃ j, p = RenderedPanel.jsonPanel j) ∨
      (∃ item, item ∈ items ∧ parse item.text = none ∧
        p = RenderedPanel.textPanel item.text)) := by
  have hf : format_pretty_result parse result = render_content_items parse items := by
    simp [format_pretty_result, h]
  rw [hf]
  exact ⟨mem_render_of_parse_none parse items, render_mem_cases parse items⟩

/-- Witness for C8: with a parser that rejects everything, the single text
item of a successful result is rendered as a plain-text panel with the same
text. -/
theorem C8_witness :
    RenderedPanel.textPanel (J := Nat) "abc" ∈
      format_pretty_result (fun _ => none) ⟨none, some [⟨"text", "abc"⟩], none⟩ :=
  (C8_pretty_fallback (fun _ => (none : Option Nat)) ⟨none, some [⟨"text", "abc"⟩], none⟩
      [⟨"text", "abc"⟩] rfl).1 ⟨"text", "abc"⟩ (List.mem_singleton.mpr rfl) rfl rfl

end McpNrepl
